import Mathlib

/-!
Verification of the FileZilla engine command/operation slice:
the reply-code bitmask taxonomy and command model of
`src/include/commands.h`, and the SFTP permissions-change operation
state machine of `src/engine/sftp/chmod.cpp`.

Machine integers are modelled as `Nat` (all reply-code arithmetic is
bitwise composition of small nonnegative masks, no overflow occurs).
Stateful member functions are modelled by explicit state passing: a
step takes the operation data and returns the updated data, the list
of side effects performed (in order), and the returned reply code.
-/

/-! ### Reply codes (src/include/commands.h, lines 47-68) -/

def FZ_REPLY_OK : Nat := 0x0000

def FZ_REPLY_WOULDBLOCK : Nat := 0x0001

def FZ_REPLY_ERROR : Nat := 0x0002

def FZ_REPLY_CRITICALERROR : Nat := 0x0004 ||| FZ_REPLY_ERROR

def FZ_REPLY_CANCELED : Nat := 0x0008 ||| FZ_REPLY_ERROR

def FZ_REPLY_SYNTAXERROR : Nat := 0x0010 ||| FZ_REPLY_ERROR

def FZ_REPLY_NOTCONNECTED : Nat := 0x0020 ||| FZ_REPLY_ERROR

def FZ_REPLY_DISCONNECTED : Nat := 0x0040

def FZ_REPLY_INTERNALERROR : Nat := 0x0080 ||| FZ_REPLY_ERROR

def FZ_REPLY_BUSY : Nat := 0x0100 ||| FZ_REPLY_ERROR

def FZ_REPLY_ALREADYCONNECTED : Nat := 0x0200 ||| FZ_REPLY_ERROR

def FZ_REPLY_PASSWORDFAILED : Nat := 0x0400

def FZ_REPLY_TIMEOUT : Nat := 0x0800 ||| FZ_REPLY_ERROR

def FZ_REPLY_NOTSUPPORTED : Nat := 0x1000 ||| FZ_REPLY_ERROR

def FZ_REPLY_WRITEFAILED : Nat := 0x2000 ||| FZ_REPLY_ERROR

def FZ_REPLY_LINKNOTDIR : Nat := 0x4000 ||| FZ_REPLY_ERROR

def FZ_REPLY_CONTINUE : Nat := 0x8000

def FZ_REPLY_ERROR_NOTFOUND : Nat := 0x10000 ||| FZ_REPLY_ERROR

/-- Modelled from the spec: the taxonomy contract (its implementation is
not in the shown slice) says testing "is this an error" is exactly
testing the generic-error bit, i.e. the `FZ_REPLY_ERROR` bit. -/
def is_error (c : Nat) : Bool := c &&& FZ_REPLY_ERROR != 0

/-- Modelled from the spec: composing reply codes is a bitwise OR. -/
def combine (l : List Nat) : Nat := l.foldr (fun a b => a ||| b) 0

/-- The category values the spec marks "implies error". -/
def impliesErrorCategories : List Nat :=
  [FZ_REPLY_CRITICALERROR, FZ_REPLY_CANCELED, FZ_REPLY_SYNTAXERROR,
   FZ_REPLY_NOTCONNECTED, FZ_REPLY_INTERNALERROR, FZ_REPLY_BUSY,
   FZ_REPLY_ALREADYCONNECTED, FZ_REPLY_TIMEOUT, FZ_REPLY_NOTSUPPORTED,
   FZ_REPLY_WRITEFAILED, FZ_REPLY_LINKNOTDIR]

/-- All named reply-code category values of the header. -/
def replyCodeCategories : List Nat :=
  [FZ_REPLY_OK, FZ_REPLY_WOULDBLOCK, FZ_REPLY_ERROR, FZ_REPLY_CRITICALERROR,
   FZ_REPLY_CANCELED, FZ_REPLY_SYNTAXERROR, FZ_REPLY_NOTCONNECTED,
   FZ_REPLY_DISCONNECTED, FZ_REPLY_INTERNALERROR, FZ_REPLY_BUSY,
   FZ_REPLY_ALREADYCONNECTED, FZ_REPLY_PASSWORDFAILED, FZ_REPLY_TIMEOUT,
   FZ_REPLY_NOTSUPPORTED, FZ_REPLY_WRITEFAILED, FZ_REPLY_LINKNOTDIR,
   FZ_REPLY_CONTINUE, FZ_REPLY_ERROR_NOTFOUND]

/-! ### Command IDs (src/include/commands.h, lines 16-43) -/

inductive Command
  | none
  | connect
  | disconnect
  | list
  | transfer
  | del
  | removedir
  | mkdir
  | rename
  | chmod
  | raw
  | httprequest
  | sleep
  | lookup
  | cwd
  | common_private1
  | common_private2
  | private1
  | private2
  | private3
  | private4
  | private5
  | private6
deriving DecidableEq, Repr

/-! ### External value types

`CServerPath`, `CServer`, `ServerHandle`, `Credentials`, the aio
reader/writer factory holders and `fz::uri` come from headers outside
the shown slice; they are modelled minimally from the spec. -/

/-- Modelled from the spec: `CServerPath` (serverpath.h is not in the
shown slice). A remote path is kept as its absolute textual form;
`FormatFilename file omit_path` yields the bare filename when
`omit_path` is set and the fully-qualified path to the file otherwise
(spec scenarios A and B: `a.txt` versus `/home/u/a.txt`). -/
structure CServerPath where
  pathName : String
deriving DecidableEq, Repr

def CServerPath.empty (p : CServerPath) : Bool := p.pathName.isEmpty

def CServerPath.FormatFilename (p : CServerPath) (file : String)
    (omit_path : Bool) : String :=
  if omit_path then file else p.pathName ++ "/" ++ file

/-- Modelled from the spec: server identity value object (server.h is
not in the shown slice); an opaque identity suffices for the cache
collaborator call. -/
structure CServer where
  identity : String
deriving DecidableEq, Repr

/-- Modelled from the spec: opaque handle value object. -/
structure ServerHandle where
  handleId : Nat
deriving DecidableEq, Repr

/-- Modelled from the spec: credentials value object. -/
structure Credentials where
  secret : String
deriving DecidableEq, Repr

/-- Modelled from the spec: single-use payload handle
(`fz::reader_factory_holder`); only its identity matters here. -/
structure reader_factory_holder where
  holderId : Nat
deriving DecidableEq, Repr

/-- Modelled from the spec: single-use payload handle
(`fz::writer_factory_holder`). -/
structure writer_factory_holder where
  holderId : Nat
deriving DecidableEq, Repr

/-! ### Concrete commands (src/include/commands.h, lines 74-371)

Each C++ command class becomes a structure with its kind-specific
fields; const accessors become pure projections. The one non-const
member function, `CDeleteCommand::ExtractFiles`, is modelled by state
passing: it returns the moved-out value together with the mutated
command. `GetId` of `CCommandHelper<Derived, id>` is the per-kind
constant; `Clone` is the copy constructor, a memberwise value copy. -/

structure CConnectCommand where
  server_ : CServer
  handle_ : ServerHandle
  credentials_ : Credentials
  retry_connecting_ : Bool
deriving DecidableEq, Repr

def CConnectCommand.GetServer (c : CConnectCommand) : CServer := c.server_

def CConnectCommand.GetHandle (c : CConnectCommand) : ServerHandle := c.handle_

def CConnectCommand.GetCredentials (c : CConnectCommand) : Credentials :=
  c.credentials_

def CConnectCommand.RetryConnecting (c : CConnectCommand) : Bool :=
  c.retry_connecting_

structure CListCommand where
  m_path : CServerPath
  m_subDir : String
  m_flags : Nat
deriving DecidableEq, Repr

def CListCommand.GetPath (c : CListCommand) : CServerPath := c.m_path

def CListCommand.GetSubDir (c : CListCommand) : String := c.m_subDir

def CListCommand.GetFlags (c : CListCommand) : Nat := c.m_flags

structure CFileTransferCommand where
  reader_ : reader_factory_holder
  writer_ : writer_factory_holder
  m_remotePath : CServerPath
  m_remoteFile : String
  extraFlags_ : String
  persistentState_ : String
  flags_ : Nat
deriving DecidableEq, Repr

def CFileTransferCommand.GetRemotePath (c : CFileTransferCommand) :
    CServerPath := c.m_remotePath

def CFileTransferCommand.GetRemoteFile (c : CFileTransferCommand) : String :=
  c.m_remoteFile

def CFileTransferCommand.GetFlags (c : CFileTransferCommand) : Nat := c.flags_

def CFileTransferCommand.GetExtraFlags (c : CFileTransferCommand) : String :=
  c.extraFlags_

def CFileTransferCommand.GetReader (c : CFileTransferCommand) :
    reader_factory_holder := c.reader_

def CFileTransferCommand.GetWriter (c : CFileTransferCommand) :
    writer_factory_holder := c.writer_

structure CHttpRequestCommand where
  uri_ : String
  verb_ : String
  body_ : reader_factory_holder
  output_ : writer_factory_holder
  confidential_qs_ : Bool
deriving DecidableEq, Repr

structure CRawCommand where
  m_command : String
deriving DecidableEq, Repr

def CRawCommand.GetCommand (c : CRawCommand) : String := c.m_command

def CRawCommand.valid (c : CRawCommand) : Bool := !c.m_command.isEmpty

structure CDeleteCommand where
  m_path : CServerPath
  files_ : List String
deriving DecidableEq, Repr

def CDeleteCommand.GetPath (c : CDeleteCommand) : CServerPath := c.m_path

def CDeleteCommand.GetFiles (c : CDeleteCommand) : List String := c.files_

/-- `std::vector<std::wstring>&& ExtractFiles() { return std::move(files_); }`:
moves the file list out, leaving the member empty. -/
def CDeleteCommand.ExtractFiles (c : CDeleteCommand) :
    List String × CDeleteCommand :=
  (c.files_, { c with files_ := [] })

def CDeleteCommand.valid (c : CDeleteCommand) : Bool :=
  !c.GetPath.empty && !c.GetFiles.isEmpty

structure CRemoveDirCommand where
  m_path : CServerPath
  m_subDir : String
deriving DecidableEq, Repr

def CRemoveDirCommand.GetPath (c : CRemoveDirCommand) : CServerPath := c.m_path

def CRemoveDirCommand.GetSubDir (c : CRemoveDirCommand) : String := c.m_subDir

structure CMkdirCommand where
  m_path : CServerPath
  flags_ : Nat
deriving DecidableEq, Repr

def CMkdirCommand.GetPath (c : CMkdirCommand) : CServerPath := c.m_path

def CMkdirCommand.GetFlags (c : CMkdirCommand) : Nat := c.flags_

structure CRenameCommand where
  m_fromPath : CServerPath
  m_toPath : CServerPath
  m_fromFile : String
  m_toFile : String
deriving DecidableEq, Repr

def CRenameCommand.GetFromPath (c : CRenameCommand) : CServerPath :=
  c.m_fromPath

def CRenameCommand.GetToPath (c : CRenameCommand) : CServerPath := c.m_toPath

def CRenameCommand.GetFromFile (c : CRenameCommand) : String := c.m_fromFile

def CRenameCommand.GetToFile (c : CRenameCommand) : String := c.m_toFile

structure CChmodCommand where
  m_path : CServerPath
  m_file : String
  m_permission : String
deriving DecidableEq, Repr

def CChmodCommand.GetPath (c : CChmodCommand) : CServerPath := c.m_path

def CChmodCommand.GetFile (c : CChmodCommand) : String := c.m_file

def CChmodCommand.GetPermission (c : CChmodCommand) : String := c.m_permission

/-- The closed sum of the concrete command classes of the header
(disconnect is `CBasicCommand<Command::disconnect>`, which has no
fields). -/
inductive AnyCommand
  | connect (c : CConnectCommand)
  | disconnect
  | list (c : CListCommand)
  | transfer (c : CFileTransferCommand)
  | httprequest (c : CHttpRequestCommand)
  | raw (c : CRawCommand)
  | del (c : CDeleteCommand)
  | removedir (c : CRemoveDirCommand)
  | mkdir (c : CMkdirCommand)
  | rename (c : CRenameCommand)
  | chmod (c : CChmodCommand)
deriving DecidableEq, Repr

/-- `CCommandHelper<Derived, id>::GetId` is final and returns the
template's id for each derived class. -/
def AnyCommand.GetId : AnyCommand → Command
  | .connect _ => Command.connect
  | .disconnect => Command.disconnect
  | .list _ => Command.list
  | .transfer _ => Command.transfer
  | .httprequest _ => Command.httprequest
  | .raw _ => Command.raw
  | .del _ => Command.del
  | .removedir _ => Command.removedir
  | .mkdir _ => Command.mkdir
  | .rename _ => Command.rename
  | .chmod _ => Command.chmod

/-- `CCommandHelper::Clone` is `new Derived(*this)`: a memberwise value
copy of the same derived type (copy constructors are defaulted, and for
`CDeleteCommand` the vector member is copied, not aliased). -/
def AnyCommand.Clone : AnyCommand → AnyCommand
  | .connect c => .connect ⟨c.server_, c.handle_, c.credentials_, c.retry_connecting_⟩
  | .disconnect => .disconnect
  | .list c => .list ⟨c.m_path, c.m_subDir, c.m_flags⟩
  | .transfer c =>
      .transfer ⟨c.reader_, c.writer_, c.m_remotePath, c.m_remoteFile, c.extraFlags_, c.persistentState_, c.flags_⟩
  | .httprequest c => .httprequest ⟨c.uri_, c.verb_, c.body_, c.output_, c.confidential_qs_⟩
  | .raw c => .raw ⟨c.m_command⟩
  | .del c => .del ⟨c.m_path, c.files_⟩
  | .removedir c => .removedir ⟨c.m_path, c.m_subDir⟩
  | .mkdir c => .mkdir ⟨c.m_path, c.flags_⟩
  | .rename c => .rename ⟨c.m_fromPath, c.m_toPath, c.m_fromFile, c.m_toFile⟩
  | .chmod c => .chmod ⟨c.m_path, c.m_file, c.m_permission⟩

/-- The copy-constructor clone of a delete command alone (same
memberwise copy `CCommandHelper<CDeleteCommand, Command::del>::Clone`
performs, kept at the concrete type). -/
def CDeleteCommand.Clone (c : CDeleteCommand) : CDeleteCommand :=
  { m_path := c.m_path, files_ := c.files_ }

/-! ### SFTP permissions-change operation (src/engine/sftp/chmod.cpp) -/

inductive chmodStates
  | chmod_init
  | chmod_waitcwd
  | chmod_chmod
deriving DecidableEq, Repr

/-- Modelled from the spec: the directory cache collaborator's
attribute-state argument (`CDirectoryCache::unknown` in the call;
directorycache.h is not in the shown slice). Only the `unknown` value
is exercised by this slice. -/
inductive AttributeState
  | unknown
deriving DecidableEq, Repr

/-- The externally observable side effects a step performs, in order:
the status log line, the delegated change-directory sub-operation, the
directory-cache update-or-invalidate call, and the outbound protocol
line handed to the transport. -/
inductive Effect
  | logStatus (message : String)
  | changeDir (path : CServerPath)
  | updateFile (server : CServer) (path : CServerPath) (file : String)
      (trusted : Bool) (state : AttributeState)
  | sendCommand (line : String)
deriving DecidableEq, Repr

/-- Modelled from the spec: `CSftpControlSocket::QuoteFilename` is
outside the shown slice; the spec only requires the action to carry the
name selected by the addressing mode, so quoting is modelled as
enclosing the name in double quotes. -/
def QuoteFilename (name : String) : String := "\"" ++ name ++ "\""

/-- The mutable operation data of `CSftpChmodOpData`: its state enum,
the absolute-addressing fallback flag (`useAbsolute_`, initially
false), the owned chmod command and the session's server identity. -/
structure CSftpChmodOpData where
  opState : chmodStates
  useAbsolute_ : Bool
  command_ : CChmodCommand
  currentServer_ : CServer
deriving DecidableEq, Repr

/-- `CSftpChmodOpData::Send` (lines 15-32). `sendCommandResult` stands
for the value the external `controlSocket_.SendCommand` call returns in
the `chmod_chmod` branch; the function returns the updated data, the
effects performed in order, and the reply code. -/
def CSftpChmodOpData.Send (d : CSftpChmodOpData) (sendCommandResult : Nat) :
    CSftpChmodOpData × List Effect × Nat :=
  if d.opState = chmodStates.chmod_init then
    ({ d with opState := chmodStates.chmod_waitcwd },
     [Effect.logStatus ("Setting permissions of \x27"
        ++ d.command_.GetPath.FormatFilename d.command_.GetFile false
        ++ "\x27 to \x27" ++ d.command_.GetPermission ++ "\x27"),
      Effect.changeDir d.command_.GetPath],
     FZ_REPLY_CONTINUE)
  else if d.opState = chmodStates.chmod_chmod then
    (d,
     [Effect.updateFile d.currentServer_ d.command_.GetPath d.command_.GetFile
        false AttributeState.unknown,
      Effect.sendCommand ("chmod " ++ d.command_.GetPermission ++ " "
        ++ QuoteFilename (d.command_.GetPath.FormatFilename d.command_.GetFile
              (!d.useAbsolute_)))],
     sendCommandResult)
  else
    (d, [], FZ_REPLY_INTERNALERROR)

/-- `CSftpChmodOpData::ParseResponse` (lines 34-37): returns the
control socket's stored result unchanged. -/
def CSftpChmodOpData.ParseResponse (_d : CSftpChmodOpData)
    (result_ : Nat) : Nat := result_

/-- `CSftpChmodOpData::SubcommandResult` (lines 39-52). -/
def CSftpChmodOpData.SubcommandResult (d : CSftpChmodOpData)
    (prevResult : Nat) : CSftpChmodOpData × Nat :=
  if d.opState = chmodStates.chmod_waitcwd then
    ({ d with
        useAbsolute_ := (if prevResult ≠ FZ_REPLY_OK then true else d.useAbsolute_),
        opState := chmodStates.chmod_chmod },
     FZ_REPLY_CONTINUE)
  else
    (d, FZ_REPLY_INTERNALERROR)

/-! ### Sample values (spec scenarios A and B) -/

def sampleChmodCommand : CChmodCommand := ⟨⟨"/home/u"⟩, "a.txt", "755"⟩

def sampleServer : CServer := ⟨"srv"⟩

def sampleOp (s : chmodStates) (abs : Bool) : CSftpChmodOpData :=
  ⟨s, abs, sampleChmodCommand, sampleServer⟩

def sampleDeleteCommand : CDeleteCommand := ⟨⟨"/home/u"⟩, ["a.txt"]⟩

/-- Recognizer for the status-message effect, to count the user-facing
status notices a step emits. -/
def Effect.isLogStatus : Effect → Bool
  | .logStatus _ => true
  | _ => false

/-! ### Helper lemmas -/

theorem is_error_lor (a b : Nat) :
    is_error (a ||| b) = (is_error a || is_error b) := by
  have h : ∀ n : Nat, n &&& FZ_REPLY_ERROR = (n.testBit 1).toNat * 2 := by
    intro n
    simpa [FZ_REPLY_ERROR] using Nat.and_two_pow n 1
  simp only [is_error, h, Nat.testBit_lor]
  cases ha : a.testBit 1 <;> cases hb : b.testBit 1 <;> simp

theorem is_error_combine (l : List Nat) :
    is_error (combine l) = l.any is_error := by
  induction l with
  | nil => rfl
  | cons a t ih =>
      have hc : combine (a :: t) = a ||| combine t := rfl
      rw [hc, is_error_lor, ih, List.any_cons]

/-! ### Claim theorems -/

/-- C1: in the waitcwd state, when the nested change-directory
sub-operation completes with any reply code other than ok,
`SubcommandResult` does not terminate with an error: it records that
absolute-path addressing must be used (`useAbsolute_ := true`), moves
the state to chmod, and returns the continue code (which carries no
error bit). -/
theorem C1_waitcwd_fallback_not_error (d : CSftpChmodOpData) (prevResult : Nat)
    (hs : d.opState = chmodStates.chmod_waitcwd)
    (hr : prevResult ≠ FZ_REPLY_OK) :
    (d.SubcommandResult prevResult).1.useAbsolute_ = true ∧
    (d.SubcommandResult prevResult).1.opState = chmodStates.chmod_chmod ∧
    (d.SubcommandResult prevResult).2 = FZ_REPLY_CONTINUE ∧
    is_error (d.SubcommandResult prevResult).2 = false := by
  have hce : is_error FZ_REPLY_CONTINUE = false := by decide
  refine ⟨?_, ?_, ?_, ?_⟩ <;>
    simp [CSftpChmodOpData.SubcommandResult, hs, hr, hce]

theorem C1_waitcwd_fallback_not_error_witness :
    ((sampleOp chmodStates.chmod_waitcwd false).SubcommandResult
        FZ_REPLY_ERROR).1.useAbsolute_ = true ∧
    ((sampleOp chmodStates.chmod_waitcwd false).SubcommandResult
        FZ_REPLY_ERROR).1.opState = chmodStates.chmod_chmod ∧
    ((sampleOp chmodStates.chmod_waitcwd false).SubcommandResult
        FZ_REPLY_ERROR).2 = FZ_REPLY_CONTINUE ∧
    is_error (((sampleOp chmodStates.chmod_waitcwd false).SubcommandResult
        FZ_REPLY_ERROR)).2 = false :=
  C1_waitcwd_fallback_not_error (sampleOp chmodStates.chmod_waitcwd false)
    FZ_REPLY_ERROR rfl (by decide)

/-- C5: a step invoked in a state/step combination outside the
documented protocol returns internal-error: `Send` while in waitcwd,
and `SubcommandResult` while in any state other than waitcwd. -/
theorem C5_contract_violation_internal_error
    (d e : CSftpChmodOpData) (sres prevResult : Nat)
    (hd : d.opState = chmodStates.chmod_waitcwd)
    (he : e.opState ≠ chmodStates.chmod_waitcwd) :
    (d.Send sres).2.2 = FZ_REPLY_INTERNALERROR ∧
    (e.SubcommandResult prevResult).2 = FZ_REPLY_INTERNALERROR := by
  constructor
  · simp [CSftpChmodOpData.Send, hd]
  · simp [CSftpChmodOpData.SubcommandResult, he]

theorem C5_contract_violation_internal_error_witness :
    ((sampleOp chmodStates.chmod_waitcwd false).Send 0).2.2
      = FZ_REPLY_INTERNALERROR ∧
    ((sampleOp chmodStates.chmod_chmod false).SubcommandResult
        FZ_REPLY_OK).2 = FZ_REPLY_INTERNALERROR :=
  C5_contract_violation_internal_error (sampleOp chmodStates.chmod_waitcwd false)
    (sampleOp chmodStates.chmod_chmod false) 0 FZ_REPLY_OK rfl (by decide)

/-- C6: `ParseResponse` returns the transport's reply code unchanged
for every code, critical-error codes included, so the operation's
terminal reply code equals the transport's. -/
theorem C6_parse_response_passthrough (d : CSftpChmodOpData) (code : Nat) :
    d.ParseResponse code = code := rfl

/-- C8: in the init state, `Send` emits exactly one user-facing status
message describing the intended path/permission change, delegates a
nested change-working-directory operation targeting the command's path,
sets the state to waitcwd, and returns the continue code. -/
theorem C8_init_send (d : CSftpChmodOpData) (sres : Nat)
    (h : d.opState = chmodStates.chmod_init) :
    (d.Send sres).2.1 =
      [Effect.logStatus ("Setting permissions of \x27"
          ++ d.command_.GetPath.FormatFilename d.command_.GetFile false
          ++ "\x27 to \x27" ++ d.command_.GetPermission ++ "\x27"),
       Effect.changeDir d.command_.GetPath] ∧
    ((d.Send sres).2.1.countP Effect.isLogStatus = 1) ∧
    (d.Send sres).1.opState = chmodStates.chmod_waitcwd ∧
    (d.Send sres).2.2 = FZ_REPLY_CONTINUE := by
  refine ⟨?_, ?_, ?_, ?_⟩ <;>
    simp [CSftpChmodOpData.Send, h, List.countP_cons, Effect.isLogStatus]

theorem C8_init_send_witness :
    ((sampleOp chmodStates.chmod_init false).Send 0).2.1 =
      [Effect.logStatus ("Setting permissions of \x27"
          ++ (sampleOp chmodStates.chmod_init false).command_.GetPath.FormatFilename
              (sampleOp chmodStates.chmod_init false).command_.GetFile false
          ++ "\x27 to \x27"
          ++ (sampleOp chmodStates.chmod_init false).command_.GetPermission
          ++ "\x27"),
       Effect.changeDir (sampleOp chmodStates.chmod_init false).command_.GetPath] ∧
    (((sampleOp chmodStates.chmod_init false).Send 0).2.1.countP
        Effect.isLogStatus = 1) ∧
    ((sampleOp chmodStates.chmod_init false).Send 0).1.opState
      = chmodStates.chmod_waitcwd ∧
    ((sampleOp chmodStates.chmod_init false).Send 0).2.2 = FZ_REPLY_CONTINUE :=
  C8_init_send (sampleOp chmodStates.chmod_init false) 0 rfl

/-- C7: in the chmod state, `Send` calls the directory cache's
update-or-invalidate with trusted = false and attribute-state = unknown
for the command's path and file, and this call precedes the
permission-change protocol action handed to the transport. -/
theorem C7_cache_update_before_send (d : CSftpChmodOpData) (sres : Nat)
    (h : d.opState = chmodStates.chmod_chmod) :
    (d.Send sres).2.1 =
      [Effect.updateFile d.currentServer_ d.command_.GetPath d.command_.GetFile
          false AttributeState.unknown,
       Effect.sendCommand ("chmod " ++ d.command_.GetPermission ++ " "
          ++ QuoteFilename (d.command_.GetPath.FormatFilename d.command_.GetFile
                (!d.useAbsolute_)))] := by
  simp [CSftpChmodOpData.Send, h]

theorem C7_cache_update_before_send_witness :
    ((sampleOp chmodStates.chmod_chmod false).Send 0).2.1 =
      [Effect.updateFile (sampleOp chmodStates.chmod_chmod false).currentServer_
          (sampleOp chmodStates.chmod_chmod false).command_.GetPath
          (sampleOp chmodStates.chmod_chmod false).command_.GetFile
          false AttributeState.unknown,
       Effect.sendCommand ("chmod "
          ++ (sampleOp chmodStates.chmod_chmod false).command_.GetPermission ++ " "
          ++ QuoteFilename ((sampleOp chmodStates.chmod_chmod false).command_.GetPath.FormatFilename
                (sampleOp chmodStates.chmod_chmod false).command_.GetFile
                (!(sampleOp chmodStates.chmod_chmod false).useAbsolute_)))] :=
  C7_cache_update_before_send (sampleOp chmodStates.chmod_chmod false) 0 rfl

/-- C4: starting from waitcwd in relative mode, after the nested
change-directory completes, the emitted permission-change action
addresses the target by bare filename exactly when the child returned
ok, and by the fully-qualified absolute path otherwise; in both cases
the action is still emitted (preceded by the cache invalidation). -/
theorem C4_addressing_mode (d : CSftpChmodOpData) (prevResult sres : Nat)
    (hs : d.opState = chmodStates.chmod_waitcwd)
    (ha : d.useAbsolute_ = false) :
    (prevResult = FZ_REPLY_OK →
      ((d.SubcommandResult prevResult).1.Send sres).2.1 =
        [Effect.updateFile d.currentServer_ d.command_.GetPath
            d.command_.GetFile false AttributeState.unknown,
         Effect.sendCommand ("chmod " ++ d.command_.GetPermission ++ " "
            ++ QuoteFilename d.command_.GetFile)]) ∧
    (prevResult ≠ FZ_REPLY_OK →
      ((d.SubcommandResult prevResult).1.Send sres).2.1 =
        [Effect.updateFile d.currentServer_ d.command_.GetPath
            d.command_.GetFile false AttributeState.unknown,
         Effect.sendCommand ("chmod " ++ d.command_.GetPermission ++ " "
            ++ QuoteFilename (d.command_.GetPath.pathName ++ "/"
                  ++ d.command_.GetFile))]) := by
  constructor
  · intro hok
    simp [CSftpChmodOpData.SubcommandResult, CSftpChmodOpData.Send, hs, ha, hok,
      CServerPath.FormatFilename]
  · intro hko
    simp [CSftpChmodOpData.SubcommandResult, CSftpChmodOpData.Send, hs, ha, hko,
      CServerPath.FormatFilename]

theorem C4_addressing_mode_witness :
    (FZ_REPLY_OK = FZ_REPLY_OK →
      (((sampleOp chmodStates.chmod_waitcwd false).SubcommandResult
          FZ_REPLY_OK).1.Send 0).2.1 =
        [Effect.updateFile (sampleOp chmodStates.chmod_waitcwd false).currentServer_
            (sampleOp chmodStates.chmod_waitcwd false).command_.GetPath
            (sampleOp chmodStates.chmod_waitcwd false).command_.GetFile
            false AttributeState.unknown,
         Effect.sendCommand ("chmod "
            ++ (sampleOp chmodStates.chmod_waitcwd false).command_.GetPermission
            ++ " "
            ++ QuoteFilename (sampleOp chmodStates.chmod_waitcwd false).command_.GetFile)]) ∧
    (FZ_REPLY_OK ≠ FZ_REPLY_OK →
      (((sampleOp chmodStates.chmod_waitcwd false).SubcommandResult
          FZ_REPLY_OK).1.Send 0).2.1 =
        [Effect.updateFile (sampleOp chmodStates.chmod_waitcwd false).currentServer_
            (sampleOp chmodStates.chmod_waitcwd false).command_.GetPath
            (sampleOp chmodStates.chmod_waitcwd false).command_.GetFile
            false AttributeState.unknown,
         Effect.sendCommand ("chmod "
            ++ (sampleOp chmodStates.chmod_waitcwd false).command_.GetPermission
            ++ " "
            ++ QuoteFilename ((sampleOp chmodStates.chmod_waitcwd false).command_.GetPath.pathName
                  ++ "/"
                  ++ (sampleOp chmodStates.chmod_waitcwd false).command_.GetFile))]) :=
  C4_addressing_mode (sampleOp chmodStates.chmod_waitcwd false) FZ_REPLY_OK 0
    rfl rfl

/-- C3: every category value the spec marks "implies error" has the
generic-error bit (`FZ_REPLY_ERROR`) set; the ok and would-block values
do not; and for any bitwise-OR composition of reply codes, the is-error
test holds exactly when some composed code passes it. -/
theorem C3_error_bit_taxonomy :
    impliesErrorCategories.all is_error = true ∧
    (is_error FZ_REPLY_OK = false ∧ is_error FZ_REPLY_WOULDBLOCK = false) ∧
    ∀ l : List Nat, is_error (combine l) = l.any is_error :=
  ⟨by decide, ⟨by decide, by decide⟩, is_error_combine⟩

/-- C2 counterexample: the single-use payload extraction is exposed by
the delete-type command, whose kind tag is del, not transfer, and it
observably mutates the command: after `ExtractFiles` the file list it
reports has changed. -/
theorem C2_extraction_on_delete_counterexample :
    AnyCommand.GetId (AnyCommand.del sampleDeleteCommand) = Command.del ∧
    Command.del ≠ Command.transfer ∧
    sampleDeleteCommand.ExtractFiles.2.GetFiles ≠ sampleDeleteCommand.GetFiles :=
  ⟨rfl, by decide, by decide⟩

/-- C2 amended: the single-use payload extraction lives on the
delete-type command, not the transfer-type command: `ExtractFiles`
moves the file list out, after which the list is empty and a second
extraction yields nothing. -/
theorem C2_extraction_on_delete (p : CServerPath) (fs : List String) :
    (AnyCommand.del ⟨p, fs⟩).GetId = Command.del ∧
    (CDeleteCommand.ExtractFiles ⟨p, fs⟩).1 = fs ∧
    (CDeleteCommand.ExtractFiles ⟨p, fs⟩).2.GetFiles = [] ∧
    ((CDeleteCommand.ExtractFiles ⟨p, fs⟩).2.ExtractFiles).1 = [] :=
  ⟨rfl, rfl, rfl, rfl⟩

/-- C9: `Clone` produces an independent value copy of the same kind:
the clone's kind tag equals the original's, the copy is observably
identical, and mutating a delete-command clone (the one mutator,
`ExtractFiles`) empties only the clone while the original still reports
its full file list. -/
theorem C9_clone_independent (c : AnyCommand) (p : CServerPath)
    (fs : List String) :
    (c.Clone.GetId = c.GetId ∧ c.Clone = c) ∧
    ((CDeleteCommand.Clone ⟨p, fs⟩).ExtractFiles.2.GetFiles = [] ∧
     (CDeleteCommand.Clone ⟨p, fs⟩).GetFiles = fs ∧
     (CDeleteCommand.mk p fs).GetFiles = fs) := by
  refine ⟨⟨?_, ?_⟩, rfl, rfl, rfl⟩
  · cases c <;> rfl
  · cases c <;> rfl

/-- C10: a delete command admitted as valid becomes invalid through its
public interface: after `ExtractFiles` the file list is empty, `valid`
is false, and a clone taken after extraction is also invalid. -/
theorem C10_extract_breaks_validity (c : CDeleteCommand)
    (_h : c.valid = true) :
    c.ExtractFiles.2.GetFiles = [] ∧
    c.ExtractFiles.2.valid = false ∧
    (c.ExtractFiles.2.Clone).valid = false := by
  refine ⟨rfl, ?_, ?_⟩ <;>
    simp [CDeleteCommand.valid, CDeleteCommand.ExtractFiles,
      CDeleteCommand.GetFiles, CDeleteCommand.Clone, CDeleteCommand.GetPath]

theorem C10_extract_breaks_validity_witness :
    sampleDeleteCommand.ExtractFiles.2.GetFiles = [] ∧
    sampleDeleteCommand.ExtractFiles.2.valid = false ∧
    (sampleDeleteCommand.ExtractFiles.2.Clone).valid = false :=
  C10_extract_breaks_validity sampleDeleteCommand (by decide)
